import Mathlib

/-!
Verification of the contact-manager CRUD service (`src/backend/main.py`).

The service is a thin FastAPI adapter over one MongoDB collection.  We give a
shallow embedding: JSON request bodies are an inductive `Json` type, the
pydantic `Contact` model is a validation function `validateContact`, the
Mongo collection is a list of documents together with a fresh-id counter, and
each of the four route handlers (`create_contact`, `get_contacts`,
`update_contact`, `delete_contact`) is a pure function from the database and
the request to an HTTP result (status, JSON body, new database).

Environment failures (connection loss, write rejection) are not modelled:
the embedding covers the deterministic behaviour of the handlers on a live
store, which is what the claims under examination are about.
-/

set_option autoImplicit false

namespace ContactApp

/-- JSON values, the domain of HTTP request and response bodies.
(JSON numbers are restricted to integers; no claim involves fractional
literals.) -/
inductive Json where
  | null : Json
  | bool : Bool → Json
  | int : Int → Json
  | str : String → Json
  | arr : List Json → Json
  | obj : List (String × Json) → Json

/-- First value bound to key `k` in a JSON object's field list. -/
def lookupKey (kvs : List (String × Json)) (k : String) : Option Json :=
  match kvs with
  | [] => none
  | (k', v) :: rest => if k' = k then some v else lookupKey rest k

/-- Extract a JSON string. -/
def asStr : Json → Option String
  | Json.str s => some s
  | _ => none

/-- Decimal value of a digit character, `none` on a non-digit. -/
def decDigit (c : Char) : Option Nat :=
  if '0' ≤ c ∧ c ≤ '9' then some (c.toNat - '0'.toNat) else none

/-- Decimal value of a digit string, `none` as soon as a non-digit occurs. -/
def decDigitsCore (acc : Nat) : List Char → Option Nat
  | [] => some acc
  | c :: cs =>
      match decDigit c with
      | none => none
      | some d => decDigitsCore (acc * 10 + d) cs

/-- Integer denoted by a string of an optional sign followed by one or more
digits; `none` otherwise.  This is the string-to-int coercion pydantic's
lax mode performs for an `int` field in v1 and v2 alike (both also strip
surrounding whitespace and v1 additionally allows digit-grouping
underscores; those extras are not modelled, and no theorem here asserts a
rejection for them). -/
def parseIntString (s : String) : Option Int :=
  match s.data with
  | [] => none
  | '-' :: rest =>
      if rest = [] then none else (decDigitsCore 0 rest).map fun n => -(n : Int)
  | '+' :: rest =>
      if rest = [] then none else (decDigitsCore 0 rest).map fun n => (n : Int)
  | cs => (decDigitsCore 0 cs).map fun n => (n : Int)

/-- Extract the `age` value as pydantic's lax mode does: a JSON integer, or
a numeric string coerced to the integer it denotes. -/
def asIntLax : Json → Option Int
  | Json.int n => some n
  | Json.str s => parseIntString s
  | _ => none

/-- The pydantic `Contact` model (main.py lines 39-43): `name : str`,
`age : int`, `mobile : str`, `email : str`.  Note there is no `id` field. -/
structure Contact where
  name : String
  age : Int
  mobile : String
  email : String
deriving Repr, DecidableEq

/-- FastAPI's request-body validation against the `Contact` model: the body
must be a JSON object providing all four declared fields; string fields
must be strings, and `age` must be an integer or — pydantic's lax coercion,
stable across v1 and v2 — a numeric string, which is coerced.  Unknown keys
are ignored (pydantic's default `extra` policy).  Coercions only one
pydantic major version performs (v1's number/bool → `str` for the string
fields, bool → `int` or underscore-grouped digit strings for `age`) are not
modelled; theorems that assert a rejection therefore hypothesise
`definitelyInvalid`, which covers only payloads every version rejects. -/
def validateContact : Json → Option Contact
  | Json.obj kvs =>
      match (lookupKey kvs "name").bind asStr, (lookupKey kvs "age").bind asIntLax,
            (lookupKey kvs "mobile").bind asStr, (lookupKey kvs "email").bind asStr with
      | some n, some a, some m, some e => some ⟨n, a, m, e⟩
      | _, _, _, _ => none
  | _ => none

/-- Hex value of a character, as accepted by `bson.ObjectId`. -/
def hexVal (c : Char) : Option Nat :=
  if '0' ≤ c ∧ c ≤ '9' then some (c.toNat - '0'.toNat)
  else if 'a' ≤ c ∧ c ≤ 'f' then some (c.toNat - 'a'.toNat + 10)
  else if 'A' ≤ c ∧ c ≤ 'F' then some (c.toNat - 'A'.toNat + 10)
  else none

/-- `bson.ObjectId(s)`: succeeds exactly on 24-character hex strings,
yielding the identifier's numeric value; on any other string the constructor
raises (modelled as `none`). -/
def parseObjectId (s : String) : Option Nat :=
  if s.length = 24 then
    s.data.foldl (fun acc c => acc.bind fun n => (hexVal c).map fun v => n * 16 + v) (some 0)
  else none

/-- Lowercase hex digit for `n % 16`. -/
def hexChar (n : Nat) : Char :=
  if n % 16 < 10 then Char.ofNat ('0'.toNat + n % 16)
  else Char.ofNat ('a'.toNat + (n % 16 - 10))

/-- Big-endian list of `k` hex digits of `n`. -/
def hexDigits : Nat → Nat → List Char
  | 0, _ => []
  | k + 1, n => hexDigits k (n / 16) ++ [hexChar n]

/-- `str(oid)`: the 24-character lowercase hex rendering of an ObjectId. -/
def oidString (n : Nat) : String := ⟨hexDigits 24 n⟩

/-- A persisted document of the `contacts` collection: the storage-assigned
`_id` plus the four contact fields inserted by `create_contact`. -/
structure Doc where
  id : Nat
  name : String
  age : Int
  mobile : String
  email : String
deriving Repr, DecidableEq

/-- The document `insert_one` stores for contact `c` under identifier `i`:
exactly the four fields of `contact.dict()` plus the generated `_id`. -/
def mkDoc (i : Nat) (c : Contact) : Doc :=
  ⟨i, c.name, c.age, c.mobile, c.email⟩

/-- Overwriting the four data fields of a document, as
`update_one({"_id": oid}, {"$set": contact.dict()})` does to the matched
document; the `_id` is untouched. -/
def setFields (d : Doc) (c : Contact) : Doc :=
  ⟨d.id, c.name, c.age, c.mobile, c.email⟩

/-- The state of the `contacts` collection: the stored documents, in storage
order, and the next identifier the storage layer will assign. -/
structure DB where
  docs : List Doc
  nextId : Nat
deriving Repr, DecidableEq

/-- `collection.insert_one(contact.dict())`: stores a new document whose
`_id` is assigned by the storage layer, returning the inserted id. -/
def insert_one (db : DB) (c : Contact) : Nat × DB :=
  (db.nextId, ⟨db.docs ++ [mkDoc db.nextId c], db.nextId + 1⟩)

/-- `collection.find()`: every document of the collection, in storage order. -/
def find (db : DB) : List Doc := db.docs

/-- Replace the data fields of the first document whose `_id` is `oid`
(Mongo's `update_one` modifies at most one document). -/
def replaceFirst (oid : Nat) (c : Contact) : List Doc → List Doc
  | [] => []
  | d :: ds => if d.id = oid then setFields d c :: ds else d :: replaceFirst oid c ds

/-- Remove the first document whose `_id` is `oid` (Mongo's `delete_one`
removes at most one document). -/
def removeFirst (oid : Nat) : List Doc → List Doc
  | [] => []
  | d :: ds => if d.id = oid then ds else d :: removeFirst oid ds

/-- Whether some stored document has `_id = oid`. -/
def hasId (docs : List Doc) (oid : Nat) : Bool :=
  docs.any fun d => d.id == oid

/-- `collection.update_one({"_id": oid}, {"$set": contact.dict()})`: returns
`matched_count` together with the new collection state. -/
def update_one (db : DB) (oid : Nat) (c : Contact) : Nat × DB :=
  (if hasId db.docs oid then 1 else 0, ⟨replaceFirst oid c db.docs, db.nextId⟩)

/-- `collection.delete_one({"_id": oid})`: returns `deleted_count` together
with the new collection state. -/
def delete_one (db : DB) (oid : Nat) : Nat × DB :=
  (if hasId db.docs oid then 1 else 0, ⟨removeFirst oid db.docs, db.nextId⟩)

/-- The outcome of one handled HTTP request: status code, JSON response
body, and the collection state after the request. -/
structure HResult where
  status : Nat
  body : Json
  db : DB

/-- The body FastAPI sends with a 422 Unprocessable Entity response when
request-body validation fails (the per-field error details are not
modelled). -/
def validationErrorBody : Json := Json.obj [("detail", Json.arr [])]

/-- A contact as serialized by `response_model=List[Contact]` (main.py line
64): FastAPI filters each stored document through the `Contact` model, which
has only the four data fields, so the document's `_id` is dropped from the
response.  (The `json_encoders = {ObjectId: str}` config on line 47 never
fires: no `ObjectId`-valued field survives the filtering.) -/
def serializeDoc (d : Doc) : Json :=
  Json.obj [("name", Json.str d.name), ("age", Json.int d.age),
            ("mobile", Json.str d.mobile), ("email", Json.str d.email)]

/-- Whether a JSON value is an object carrying key `k` with a string value. -/
def hasStringKey (j : Json) (k : String) : Bool :=
  match j with
  | Json.obj kvs =>
      match lookupKey kvs k with
      | some (Json.str _) => true
      | _ => false
  | _ => false

/-- `POST /contacts/` (main.py lines 52-61).  FastAPI validates the body
against `Contact` before the handler runs (422 on failure, no storage call);
the handler then inserts `contact.dict()` and returns the generated id as a
string with the fixed success message. -/
def create_contact (db : DB) (body : Json) : HResult :=
  match validateContact body with
  | none => ⟨422, validationErrorBody, db⟩
  | some contact =>
      let r := insert_one db contact
      ⟨200,
       Json.obj [("id", Json.str (oidString r.1)),
                 ("message", Json.str "Contact created successfully")],
       r.2⟩

/-- `GET /contacts/` (main.py lines 64-72): lists `collection.find()`, each
document filtered through `response_model=List[Contact]`. -/
def get_contacts (db : DB) : HResult :=
  ⟨200, Json.arr ((find db).map serializeDoc), db⟩

/-- `PUT /contacts/{contact_id}` (main.py lines 75-86).  FastAPI validates
the body first (422 on failure).  Inside the handler's `try` block:
`ObjectId(contact_id)` raises on a malformed id, which the
`except Exception` clause turns into the generic 500.  When
`matched_count == 0` the handler raises `HTTPException(404)` — but that
raise sits inside the same `try`, and `HTTPException` is a subclass of
`Exception`, so the handler's own `except Exception` catches it and
re-raises the generic 500 "Error updating contact" instead. -/
def update_contact (db : DB) (contact_id : String) (body : Json) : HResult :=
  match validateContact body with
  | none => ⟨422, validationErrorBody, db⟩
  | some contact =>
      match parseObjectId contact_id with
      | none => ⟨500, Json.obj [("detail", Json.str "Error updating contact")], db⟩
      | some oid =>
          let r := update_one db oid contact
          if r.1 = 0 then
            ⟨500, Json.obj [("detail", Json.str "Error updating contact")], r.2⟩
          else
            ⟨200, Json.obj [("message", Json.str "Contact updated successfully")], r.2⟩

/-- `DELETE /contacts/{contact_id}` (main.py lines 89-99).  Mirrors
`update_contact`: a malformed id raises in `ObjectId(contact_id)` → 500, and
the `HTTPException(404)` raised when `deleted_count == 0` is caught by the
handler's own `except Exception` and replaced with the generic 500. -/
def delete_contact (db : DB) (contact_id : String) : HResult :=
  match parseObjectId contact_id with
  | none => ⟨500, Json.obj [("detail", Json.str "Error deleting contact")], db⟩
  | some oid =>
      let r := delete_one db oid
      if r.1 = 0 then
        ⟨500, Json.obj [("detail", Json.str "Error deleting contact")], r.2⟩
      else
        ⟨200, Json.obj [("message", Json.str "Contact deleted successfully")], r.2⟩

/-- The data-model invariant (spec §3): every persisted contact has exactly
one unique `_id`, assigned by the storage layer (hence below the fresh-id
counter). -/
def Invariant (db : DB) : Prop :=
  (db.docs.map Doc.id).Nodup ∧ ∀ d ∈ db.docs, d.id < db.nextId

instance (db : DB) : Decidable (Invariant db) := by
  unfold Invariant; infer_instance

/-- Whether stored document `d` carries exactly the four data fields of
contact `c`. -/
def matchesContact (c : Contact) (d : Doc) : Bool :=
  d.name == c.name && d.age == c.age && d.mobile == c.mobile && d.email == c.email

/-- The field list of the spec's example payload (§8): Ann. -/
def annKvs : List (String × Json) :=
  [("name", Json.str "Ann"), ("age", Json.int 30),
   ("mobile", Json.str "555-0100"), ("email", Json.str "ann@x.com")]

/-- The spec's example payload as a JSON body. -/
def annJson : Json := Json.obj annKvs

/-- The validated contact of the example payload. -/
def ann : Contact := ⟨"Ann", 30, "555-0100", "ann@x.com"⟩

/-- A stored document holding Ann's fields under `_id = 0`. -/
def annDoc : Doc := ⟨0, "Ann", 30, "555-0100", "ann@x.com"⟩

/-- An empty collection. -/
def dbEmpty : DB := ⟨[], 0⟩

/-- A collection already holding Ann's document. -/
def dbAnn : DB := ⟨[annDoc], 1⟩

theorem hexDigits_length (k : Nat) : ∀ n, (hexDigits k n).length = k := by
  induction k with
  | zero => intro n; rfl
  | succ k ih => intro n; simp [hexDigits, ih]

theorem oidString_ne_empty (n : Nat) : oidString n ≠ "" := by
  intro h
  have h2 : hexDigits 24 n = [] := congrArg String.data h
  have h3 := hexDigits_length 24 n
  rw [h2] at h3
  exact absurd h3 (by decide)

theorem lookupKey_append_of_ne (k k' : String) (v : Json) (h : k ≠ k') :
    ∀ kvs, lookupKey (kvs ++ [(k, v)]) k' = lookupKey kvs k' := by
  intro kvs
  induction kvs with
  | nil => simp [lookupKey, h]
  | cons kv rest ih =>
      obtain ⟨k₀, v₀⟩ := kv
      simp only [List.cons_append, lookupKey]
      split <;> simp [ih]

theorem hasId_eq_false_iff {docs : List Doc} {oid : Nat} :
    hasId docs oid = false ↔ ∀ d ∈ docs, d.id ≠ oid := by
  simp [hasId, List.any_eq_false]

theorem replaceFirst_of_forall_ne {oid : Nat} {c : Contact} {docs : List Doc}
    (h : ∀ d ∈ docs, d.id ≠ oid) : replaceFirst oid c docs = docs := by
  induction docs with
  | nil => rfl
  | cons a as ih =>
      rw [replaceFirst, if_neg (h a (List.mem_cons_self a as))]
      rw [ih fun d hd => h d (List.mem_cons_of_mem a hd)]

theorem removeFirst_of_forall_ne {oid : Nat} {docs : List Doc}
    (h : ∀ d ∈ docs, d.id ≠ oid) : removeFirst oid docs = docs := by
  induction docs with
  | nil => rfl
  | cons a as ih =>
      rw [removeFirst, if_neg (h a (List.mem_cons_self a as))]
      rw [ih fun d hd => h d (List.mem_cons_of_mem a hd)]

theorem replaceFirst_map_id (oid : Nat) (c : Contact) (docs : List Doc) :
    (replaceFirst oid c docs).map Doc.id = docs.map Doc.id := by
  induction docs with
  | nil => rfl
  | cons a as ih =>
      rw [replaceFirst]
      split <;> simp [setFields, ih]

theorem mem_replaceFirst {oid : Nat} {c : Contact} {docs : List Doc} {d' : Doc}
    (h : d' ∈ replaceFirst oid c docs) :
    d' ∈ docs ∨ ∃ d ∈ docs, d' = setFields d c := by
  induction docs with
  | nil => simp [replaceFirst] at h
  | cons a as ih =>
      rw [replaceFirst] at h
      by_cases ha : a.id = oid
      · rw [if_pos ha] at h
        rcases List.mem_cons.mp h with h1 | h1
        · exact Or.inr ⟨a, List.mem_cons_self a as, h1⟩
        · exact Or.inl (List.mem_cons_of_mem _ h1)
      · rw [if_neg ha] at h
        rcases List.mem_cons.mp h with h1 | h1
        · exact Or.inl (h1 ▸ List.mem_cons_self a as)
        · rcases ih h1 with h2 | ⟨d, hd, he⟩
          · exact Or.inl (List.mem_cons_of_mem _ h2)
          · exact Or.inr ⟨d, List.mem_cons_of_mem _ hd, he⟩

theorem removeFirst_sublist (oid : Nat) (docs : List Doc) :
    (removeFirst oid docs).Sublist docs := by
  induction docs with
  | nil => exact List.Sublist.refl _
  | cons a as ih =>
      rw [removeFirst]
      split
      · exact List.sublist_cons_self a as
      · exact ih.cons₂ a

theorem mem_removeFirst_id_ne {oid : Nat} {docs : List Doc}
    (hnodup : (docs.map Doc.id).Nodup) :
    ∀ d ∈ removeFirst oid docs, d.id ≠ oid := by
  induction docs with
  | nil => intro d hd; simp [removeFirst] at hd
  | cons a as ih =>
      intro d hd
      rw [removeFirst] at hd
      rw [List.map_cons, List.nodup_cons] at hnodup
      obtain ⟨hnotin, htail⟩ := hnodup
      by_cases ha : a.id = oid
      · rw [if_pos ha] at hd
        intro he
        exact hnotin (by rw [ha, ← he]; exact List.mem_map_of_mem Doc.id hd)
      · rw [if_neg ha] at hd
        rcases List.mem_cons.mp hd with h1 | h1
        · exact h1 ▸ ha
        · exact ih htail d h1

/-! ## Handler evaluation lemmas -/

theorem create_contact_eq_of_valid {db : DB} {body : Json} {c : Contact}
    (h : validateContact body = some c) :
    create_contact db body =
      ⟨200,
       Json.obj [("id", Json.str (oidString db.nextId)),
                 ("message", Json.str "Contact created successfully")],
       ⟨db.docs ++ [mkDoc db.nextId c], db.nextId + 1⟩⟩ := by
  unfold create_contact
  rw [h]
  rfl

theorem create_contact_eq_of_invalid {db : DB} {body : Json}
    (h : validateContact body = none) :
    create_contact db body = ⟨422, validationErrorBody, db⟩ := by
  unfold create_contact
  rw [h]

theorem update_contact_eq_of_invalid {db : DB} {s : String} {body : Json}
    (h : validateContact body = none) :
    update_contact db s body = ⟨422, validationErrorBody, db⟩ := by
  unfold update_contact
  rw [h]

theorem update_contact_eq_of_badid {db : DB} {s : String} {body : Json} {c : Contact}
    (hb : validateContact body = some c) (hp : parseObjectId s = none) :
    update_contact db s body =
      ⟨500, Json.obj [("detail", Json.str "Error updating contact")], db⟩ := by
  unfold update_contact
  rw [hb, hp]

theorem update_contact_db_of_id {db : DB} {s : String} {body : Json} {c : Contact}
    {oid : Nat} (hb : validateContact body = some c) (hp : parseObjectId s = some oid) :
    (update_contact db s body).db = ⟨replaceFirst oid c db.docs, db.nextId⟩ := by
  unfold update_contact
  rw [hb, hp]
  simp only [update_one, apply_ite HResult.db, ite_self]

theorem delete_contact_eq_of_badid {db : DB} {s : String}
    (hp : parseObjectId s = none) :
    delete_contact db s =
      ⟨500, Json.obj [("detail", Json.str "Error deleting contact")], db⟩ := by
  unfold delete_contact
  rw [hp]

theorem delete_contact_db_of_id {db : DB} {s : String} {oid : Nat}
    (hp : parseObjectId s = some oid) :
    (delete_contact db s).db = ⟨removeFirst oid db.docs, db.nextId⟩ := by
  unfold delete_contact
  rw [hp]
  simp only [delete_one, apply_ite HResult.db, ite_self]

/-! ## Claim theorems -/

/-- Claim C1 (code bug, demonstrated at a concrete input): on an update and
on a delete whose id is a well-formed ObjectId matching no document
(the collection is empty, so `matched_count` / `deleted_count` is 0), the
service returns 500 with the generic error body, never the 404 "Contact
not found" the claim and the code's own `raise HTTPException(404)` intend:
that raise sits inside the handler's `try`, so its own `except Exception`
catches it and re-raises the generic 500. -/
theorem notFound_is_masked_as_500 :
    update_contact dbEmpty "0123456789abcdef01234567" annJson =
      ⟨500, Json.obj [("detail", Json.str "Error updating contact")], dbEmpty⟩ ∧
    delete_contact dbEmpty "0123456789abcdef01234567" =
      ⟨500, Json.obj [("detail", Json.str "Error deleting contact")], dbEmpty⟩ ∧
    (500 : Nat) ≠ 404 :=
  ⟨rfl, rfl, by decide⟩

/-- Claim C2 (code bug, demonstrated at a concrete input): the list
operation does return the full sequence of stored contacts, but each is
filtered through `response_model=List[Contact]`, a model with no `id`
field, so no response item carries an `id` string — contrary to the claim
(and to the code's own `json_encoders` comment, whose `ObjectId → str`
encoder can never fire). -/
theorem list_response_omits_id :
    get_contacts dbAnn = ⟨200, Json.arr [serializeDoc annDoc], dbAnn⟩ ∧
    hasStringKey (serializeDoc annDoc) "id" = false :=
  ⟨rfl, rfl⟩

/-- Claim C3: for every payload validating to a contact `c`, create inserts
the document (the four fields of `c` under the storage-generated id) and
responds 200 with the generated id rendered as a (non-empty) string and the
exact message "Contact created successfully". -/
theorem create_success_response (db : DB) (body : Json) (c : Contact)
    (h : validateContact body = some c) :
    create_contact db body =
      ⟨200,
       Json.obj [("id", Json.str (oidString db.nextId)),
                 ("message", Json.str "Contact created successfully")],
       ⟨db.docs ++ [mkDoc db.nextId c], db.nextId + 1⟩⟩ ∧
    oidString db.nextId ≠ "" :=
  ⟨create_contact_eq_of_valid h, oidString_ne_empty _⟩

/-- Witness for C3: the spec's example payload on an empty collection. -/
theorem create_success_response_witness :
    validateContact annJson = some ann ∧
    create_contact dbEmpty annJson =
      ⟨200,
       Json.obj [("id", Json.str (oidString 0)),
                 ("message", Json.str "Contact created successfully")],
       ⟨[mkDoc 0 ann], 1⟩⟩ :=
  ⟨rfl, ((create_success_response dbEmpty annJson ann rfl).1)⟩

/-- Claim C5: a path id that is not a syntactically valid ObjectId makes
`ObjectId(contact_id)` raise inside the handler's `try`, which the broad
`except` maps to the generic 500 server error — on update (with any valid
body) and on delete alike, with the fixed generic error bodies. -/
theorem malformed_id_server_error (db : DB) (s : String) (body : Json) (c : Contact)
    (hs : parseObjectId s = none) (hb : validateContact body = some c) :
    update_contact db s body =
      ⟨500, Json.obj [("detail", Json.str "Error updating contact")], db⟩ ∧
    delete_contact db s =
      ⟨500, Json.obj [("detail", Json.str "Error deleting contact")], db⟩ :=
  ⟨update_contact_eq_of_badid hb hs, delete_contact_eq_of_badid hs⟩

/-- Witness for C5: the malformed id "abc" with the example payload. -/
theorem malformed_id_server_error_witness :
    parseObjectId "abc" = none ∧
    update_contact dbAnn "abc" annJson =
      ⟨500, Json.obj [("detail", Json.str "Error updating contact")], dbAnn⟩ ∧
    delete_contact dbAnn "abc" =
      ⟨500, Json.obj [("detail", Json.str "Error deleting contact")], dbAnn⟩ :=
  ⟨rfl,
   (malformed_id_server_error dbAnn "abc" annJson ann rfl rfl).1,
   (malformed_id_server_error dbAnn "abc" annJson ann rfl rfl).2⟩

/-- Claim C6: an update or delete whose path id matches no stored document
leaves the collection unchanged.  The hypothesis covers both a well-formed
unmatched id (`update_one`/`delete_one` match nothing) and a malformed one
(`ObjectId` raises before any storage call). -/
theorem unmatched_id_leaves_db_unchanged (db : DB) (s : String) (body : Json)
    (h : ∀ d ∈ db.docs, parseObjectId s ≠ some d.id) :
    (update_contact db s body).db = db ∧ (delete_contact db s).db = db := by
  cases hp : parseObjectId s with
  | none =>
      constructor
      · cases hv : validateContact body with
        | none => rw [update_contact_eq_of_invalid hv]
        | some c => rw [update_contact_eq_of_badid hv hp]
      · rw [delete_contact_eq_of_badid hp]
  | some oid =>
      have hne : ∀ d ∈ db.docs, d.id ≠ oid := fun d hd he => h d hd (by rw [hp, he])
      constructor
      · cases hv : validateContact body with
        | none => rw [update_contact_eq_of_invalid hv]
        | some c => rw [update_contact_db_of_id hv hp, replaceFirst_of_forall_ne hne]
      · rw [delete_contact_db_of_id hp, removeFirst_of_forall_ne hne]

/-- Witness for C6: a well-formed id matching nothing in `dbAnn`. -/
theorem unmatched_id_leaves_db_unchanged_witness :
    (∀ d ∈ dbAnn.docs, parseObjectId "0123456789abcdef01234567" ≠ some d.id) ∧
    (update_contact dbAnn "0123456789abcdef01234567" annJson).db = dbAnn ∧
    (delete_contact dbAnn "0123456789abcdef01234567").db = dbAnn :=
  ⟨by decide,
   (unmatched_id_leaves_db_unchanged dbAnn "0123456789abcdef01234567" annJson (by decide)).1,
   (unmatched_id_leaves_db_unchanged dbAnn "0123456789abcdef01234567" annJson (by decide)).2⟩

theorem matchesContact_mkDoc (i : Nat) (c : Contact) :
    matchesContact c (mkDoc i c) = true := by
  simp [matchesContact, mkDoc]

/-- Counterexample to claim C7 as stated: when the collection already holds
a document with the same four fields as the payload, create-then-list shows
two matching documents, not exactly one. -/
theorem create_then_list_duplicate :
    validateContact annJson = some ann ∧
    annDoc ∈ dbAnn.docs ∧ matchesContact ann annDoc = true ∧
    ((create_contact dbAnn annJson).db.docs.filter (matchesContact ann)).length = 2 ∧
    (2 : Nat) ≠ 1 :=
  ⟨rfl, by decide, rfl, rfl, by decide⟩

/-- Claim C7 (amended): for every valid payload and every collection state
holding no document with the payload's four fields, create-then-list yields
exactly one matching document, and every matching document carries a
non-empty generated id string. -/
theorem create_then_list_exactly_one (db : DB) (body : Json) (c : Contact)
    (hb : validateContact body = some c)
    (hfresh : ∀ d ∈ db.docs, matchesContact c d = false) :
    ((create_contact db body).db.docs.filter (matchesContact c)).length = 1 ∧
    (∀ d ∈ (create_contact db body).db.docs,
        matchesContact c d = true → oidString d.id ≠ "") ∧
    (get_contacts (create_contact db body).db).body =
      Json.arr ((create_contact db body).db.docs.map serializeDoc) := by
  refine ⟨?_, fun d _ _ => oidString_ne_empty _, rfl⟩
  rw [create_contact_eq_of_valid hb]
  show ((db.docs ++ [mkDoc db.nextId c]).filter (matchesContact c)).length = 1
  rw [List.filter_append]
  have h1 : db.docs.filter (matchesContact c) = [] :=
    List.filter_eq_nil_iff.mpr fun d hd => by simp [hfresh d hd]
  rw [h1]
  simp [List.filter_cons, matchesContact_mkDoc]

/-- Witness for C7 (amended): the example payload on the empty collection. -/
theorem create_then_list_exactly_one_witness :
    validateContact annJson = some ann ∧
    ((create_contact dbEmpty annJson).db.docs.filter (matchesContact ann)).length = 1 :=
  ⟨rfl, (create_then_list_exactly_one dbEmpty annJson ann rfl (by simp [dbEmpty])).1⟩

/-- Claim C8: for every collection state whose stored ids are distinct (the
storage layer's `_id` uniqueness) and every path id, delete-then-list shows
no document with the deleted id: a malformed id can equal no stored id, and
a well-formed one is removed by `delete_one`. -/
theorem delete_then_list_excludes_id (db : DB) (s : String)
    (hnodup : (db.docs.map Doc.id).Nodup) :
    (get_contacts (delete_contact db s).db).body =
      Json.arr ((delete_contact db s).db.docs.map serializeDoc) ∧
    ∀ d ∈ (delete_contact db s).db.docs, parseObjectId s ≠ some d.id := by
  refine ⟨rfl, ?_⟩
  cases hp : parseObjectId s with
  | none => intro d _ h; exact Option.noConfusion h
  | some oid =>
      intro d hd
      rw [delete_contact_db_of_id hp] at hd
      have hne := mem_removeFirst_id_ne hnodup d hd
      intro he
      injection he with h2
      exact hne h2.symm

/-- Witness for C8: deleting Ann's id from `dbAnn`. -/
theorem delete_then_list_excludes_id_witness :
    (dbAnn.docs.map Doc.id).Nodup ∧
    ∀ d ∈ (delete_contact dbAnn (oidString 0)).db.docs,
      parseObjectId (oidString 0) ≠ some d.id :=
  ⟨by decide, (delete_then_list_excludes_id dbAnn (oidString 0) (by decide)).2⟩

/-- Claim C9: every handler preserves the id invariant (distinct storage
ids, all assigned below the fresh-id counter); list leaves the state
untouched; create stores the new document under the storage counter's id —
never a client-supplied one — and update preserves the stored ids, every
touched document keeping its id with only the four data fields replaced. -/
theorem ops_preserve_id_invariant (db : DB) (hinv : Invariant db) :
    (∀ body, Invariant (create_contact db body).db) ∧
    (get_contacts db).db = db ∧
    (∀ s body, Invariant (update_contact db s body).db) ∧
    (∀ s, Invariant (delete_contact db s).db) ∧
    (∀ body c, validateContact body = some c →
        (create_contact db body).db.docs = db.docs ++ [mkDoc db.nextId c]) ∧
    (∀ s body,
        (update_contact db s body).db.docs.map Doc.id = db.docs.map Doc.id ∧
        ∀ d' ∈ (update_contact db s body).db.docs,
          d' ∈ db.docs ∨ ∃ d ∈ db.docs, ∃ c, validateContact body = some c ∧
            d' = setFields d c) := by
  obtain ⟨hnodup, hbound⟩ := hinv
  have hupdb : ∀ (s : String) (body : Json),
      (update_contact db s body).db = db ∨
      ∃ c oid, validateContact body = some c ∧ parseObjectId s = some oid ∧
        (update_contact db s body).db = ⟨replaceFirst oid c db.docs, db.nextId⟩ := by
    intro s body
    cases hv : validateContact body with
    | none => exact Or.inl (by rw [update_contact_eq_of_invalid hv])
    | some c =>
        cases hp : parseObjectId s with
        | none => exact Or.inl (by rw [update_contact_eq_of_badid hv hp])
        | some oid => exact Or.inr ⟨c, oid, rfl, rfl, update_contact_db_of_id hv hp⟩
  refine ⟨?_, rfl, ?_, ?_, ?_, ?_⟩
  · intro body
    cases hv : validateContact body with
    | none => rw [create_contact_eq_of_invalid hv]; exact ⟨hnodup, hbound⟩
    | some c =>
        rw [create_contact_eq_of_valid hv]
        constructor
        · show ((db.docs ++ [mkDoc db.nextId c]).map Doc.id).Nodup
          rw [List.map_append, List.nodup_append]
          refine ⟨hnodup, by simp, ?_⟩
          intro a ha hmem
          have h1 : a = db.nextId := by
            simpa [mkDoc] using hmem
          rcases List.mem_map.mp ha with ⟨d, hd, hda⟩
          have := hbound d hd
          rw [hda, h1] at this
          exact absurd this (Nat.lt_irrefl _)
        · intro d hd
          show d.id < db.nextId + 1
          rcases List.mem_append.mp hd with h1 | h1
          · exact Nat.lt_succ_of_lt (hbound d h1)
          · rw [List.mem_singleton.mp h1]; exact Nat.lt_succ_self _
  · intro s body
    rcases hupdb s body with h | ⟨c, oid, _, _, heq⟩
    · rw [h]; exact ⟨hnodup, hbound⟩
    · rw [heq]
      constructor
      · show ((replaceFirst oid c db.docs).map Doc.id).Nodup
        rw [replaceFirst_map_id]; exact hnodup
      · intro d' hd'
        show d'.id < db.nextId
        rcases mem_replaceFirst hd' with h1 | ⟨d, hd, he⟩
        · exact hbound d' h1
        · rw [he]; exact hbound d hd
  · intro s
    cases hp : parseObjectId s with
    | none => rw [delete_contact_eq_of_badid hp]; exact ⟨hnodup, hbound⟩
    | some oid =>
        rw [delete_contact_db_of_id hp]
        constructor
        · show ((removeFirst oid db.docs).map Doc.id).Nodup
          exact hnodup.sublist ((removeFirst_sublist oid db.docs).map Doc.id)
        · intro d hd
          exact hbound d ((removeFirst_sublist oid db.docs).subset hd)
  · intro body c hv
    rw [create_contact_eq_of_valid hv]
  · intro s body
    rcases hupdb s body with h | ⟨c, oid, hv, _, heq⟩
    · rw [h]; exact ⟨rfl, fun d' hd' => Or.inl hd'⟩
    · rw [heq]
      refine ⟨replaceFirst_map_id oid c db.docs, ?_⟩
      intro d' hd'
      rcases mem_replaceFirst hd' with h1 | ⟨d, hd, he⟩
      · exact Or.inl h1
      · exact Or.inr ⟨d, hd, c, hv, he⟩

/-- Witness for C9: the invariant holds of `dbAnn` and survives a create. -/
theorem ops_preserve_id_invariant_witness :
    Invariant dbAnn ∧ Invariant (create_contact dbAnn annJson).db :=
  ⟨by decide, (ops_preserve_id_invariant dbAnn (by decide)).1 annJson⟩

/-- Claim C10: extra payload keys (a client-supplied `id` included) do not
affect validation — pydantic's default policy discards them — and a
successful create stores exactly the four schema fields under the
storage-generated identifier. -/
theorem extra_fields_discarded :
    (∀ (kvs : List (String × Json)) (k : String) (v : Json),
        k ≠ "name" → k ≠ "age" → k ≠ "mobile" → k ≠ "email" →
        validateContact (Json.obj (kvs ++ [(k, v)])) = validateContact (Json.obj kvs)) ∧
    (∀ (db : DB) (kvs : List (String × Json)) (c : Contact),
        validateContact (Json.obj kvs) = some c →
        (create_contact db (Json.obj kvs)).status = 200 ∧
        (create_contact db (Json.obj kvs)).db.docs = db.docs ++ [mkDoc db.nextId c]) := by
  constructor
  · intro kvs k v h1 h2 h3 h4
    simp only [validateContact]
    rw [lookupKey_append_of_ne k "name" v h1 kvs, lookupKey_append_of_ne k "age" v h2 kvs,
        lookupKey_append_of_ne k "mobile" v h3 kvs, lookupKey_append_of_ne k "email" v h4 kvs]
  · intro db kvs c hv
    rw [create_contact_eq_of_valid hv]
    exact ⟨rfl, rfl⟩

/-- Witness for C10: the example payload with a client-supplied `id` key
validates exactly as without it, and create on the empty collection stores
just the four fields plus the generated id. -/
theorem extra_fields_discarded_witness :
    validateContact (Json.obj (annKvs ++ [("id", Json.str "649aaaabbbbccccdddd00000")])) =
      validateContact (Json.obj annKvs) ∧
    (create_contact dbEmpty (Json.obj annKvs)).db.docs = [mkDoc 0 ann] := by
  constructor
  · exact extra_fields_discarded.1 annKvs "id" (Json.str "649aaaabbbbccccdddd00000")
      (by decide) (by decide) (by decide) (by decide)
  · have h := (extra_fields_discarded.2 dbEmpty annKvs ann rfl).2
    simpa [dbEmpty] using h

end ContactApp
